import Mathlib

/-!
Verification of the homework-status polling bot (`homework.py`).

The development shallowly embeds the program: JSON values are modelled by
`JValue`, Python exceptions by `PyError` (an exception class together with its
message string), fallible functions return `Except PyError _`, and the
effectful calls (the HTTP request, the Telegram send) take their outcome as an
explicit argument supplied by the environment.  The main polling loop is
modelled one iteration at a time by `mainIter`, which records the next state
(or the uncaught exception terminating the loop), the messages whose delivery
was attempted, the error-log lines, and the sleeps performed.
-/

namespace HomeworkBot

/-- The Python exception classes that appear in the program. -/
inductive ErrKind where
  | TypeError
  | KeyError
  | ConnectionError
  | APIResponseError
  | UnboundLocalError
  | ApiException
  | RequestException
deriving DecidableEq

/-- A raised Python exception: its class and its message (`args[0]`). -/
structure PyError where
  kind : ErrKind
  msg : String
deriving DecidableEq

/-- JSON values, as produced by `response.json()`. -/
inductive JValue where
  | null : JValue
  | bool : Bool → JValue
  | int : Int → JValue
  | str : String → JValue
  | list : List JValue → JValue
  | dict : List (String × JValue) → JValue

/-- Python truthiness (`bool(v)`) of a JSON value. -/
def pyTruthy : JValue → Bool
  | .null => false
  | .bool b => b
  | .int n => n != 0
  | .str s => s != ""
  | .list xs => !xs.isEmpty
  | .dict xs => !xs.isEmpty

/-- The rendering of `type(v)` used by f-strings, e.g. `<class 'dict'>`. -/
def pyTypeName : JValue → String
  | .null => "<class \x27NoneType\x27>"
  | .bool _ => "<class \x27bool\x27>"
  | .int _ => "<class \x27int\x27>"
  | .str _ => "<class \x27str\x27>"
  | .list _ => "<class \x27list\x27>"
  | .dict _ => "<class \x27dict\x27>"

/-- Python `repr` of a string: single quotes, switching to double quotes when
the string contains a single quote but no double quote. -/
def strRepr (s : String) : String :=
  if (s.data.any fun c => c = Char.ofNat 39) && !(s.data.any fun c => c = Char.ofNat 34) then
    "\x22" ++ s ++ "\x22"
  else
    "\x27" ++ s ++ "\x27"

mutual

/-- Python `repr` of a JSON value. -/
def pyRepr : JValue → String
  | .null => "None"
  | .bool true => "True"
  | .bool false => "False"
  | .int n => toString n
  | .str s => strRepr s
  | .list xs => "[" ++ pyReprList xs ++ "]"
  | .dict xs => "\x7b" ++ pyReprDict xs ++ "\x7d"

/-- Comma-separated `repr`s of list elements. -/
def pyReprList : List JValue → String
  | [] => ""
  | [x] => pyRepr x
  | x :: rest => pyRepr x ++ ", " ++ pyReprList rest

/-- Comma-separated `repr`s of dict entries. -/
def pyReprDict : List (String × JValue) → String
  | [] => ""
  | [(k, v)] => strRepr k ++ ": " ++ pyRepr v
  | (k, v) :: rest => strRepr k ++ ": " ++ pyRepr v ++ ", " ++ pyReprDict rest

end

/-- Python `str(v)`: the string itself for strings, `repr` otherwise. -/
def pyStr : JValue → String
  | .str s => s
  | v => pyRepr v

/-- `d.get(k)`: key lookup in a dict, `none` for a missing key or a non-dict. -/
def jGet : JValue → String → Option JValue
  | .dict xs, k => xs.lookup k
  | _, _ => none

/-- `d.get(k, default)`. -/
def jGetD (v : JValue) (k : String) (d : JValue) : JValue :=
  (jGet v k).getD d

/-- `v.isList` is true exactly for list values. -/
def JValue.isList : JValue → Bool
  | .list _ => true
  | _ => false

/-- `v.isDict` is true exactly for dict values. -/
def JValue.isDict : JValue → Bool
  | .dict _ => true
  | _ => false

/-- The constant `HOMEWORK_VERDICTS` table. -/
def HOMEWORK_VERDICTS : List (String × String) :=
  [("approved", "Работа проверена: ревьюеру всё понравилось. Ура!"),
   ("reviewing", "Работа взята на проверку ревьюером."),
   ("rejected", "Работа проверена: у ревьюера есть замечания.")]

/-- The constant `RETRY_PERIOD` (seconds). -/
def RETRY_PERIOD : Nat := 600

/-- The constant `ENDPOINT`. -/
def ENDPOINT : String := "https://practicum.yandex.ru/api/user_api/homework_statuses/"

/-- `send_message(bot, message)`.  The outcome of the underlying
`bot.send_message` call is the explicit argument `callResult` (`.ok ()` for a
delivered message, `.error e` for a raised exception).  The function catches
`ApiException` and `requests.RequestException`, returning `false` with an
error-log line; any other exception propagates.  The returned pair is the
boolean result together with the log lines emitted. -/
def send_message (callResult : Except PyError Unit) (message : String) :
    Except PyError (Bool × List String) :=
  match callResult with
  | .ok _ => .ok (true, ["Сообщение успешно отправлено: " ++ message])
  | .error e =>
    if e.kind = .ApiException then
      .ok (false, ["Ошибка API Telegram: " ++ e.msg])
    else if e.kind = .RequestException then
      .ok (false, ["Ошибка сети при отправке сообщения: " ++ e.msg])
    else
      .error e

/-- The configuration visible to `get_api_answer`: the `PRACTICUM_TOKEN`
used in the `HEADERS` constant (and hence in error messages). -/
structure Config where
  practicumToken : String

/-- The outcome of the `requests.get` call in `get_api_answer`: either a
raised `requests.RequestException` (with its message), or a completed HTTP
response with status code, reason, body text and parsed JSON body. -/
inductive HttpOutcome where
  | fail (errText : String)
  | ok (status : Nat) (reason : String) (text : String) (json : JValue)

/-- The f-string rendering of the `HEADERS` dict. -/
def headersRepr (cfg : Config) : String :=
  "\x7b\x27Authorization\x27: \x27OAuth " ++ cfg.practicumToken ++ "\x27\x7d"

/-- The f-string rendering of the `params` dict. -/
def paramsRepr (t : JValue) : String :=
  "\x7b\x27from_date\x27: " ++ pyRepr t ++ "\x7d"

/-- The trailing request context shared by both `get_api_answer` messages. -/
def requestContext (cfg : Config) (t : JValue) : String :=
  "URL: " ++ ENDPOINT ++ ", Headers: " ++ headersRepr cfg ++
    ", Параметры: " ++ paramsRepr t

/-- The `ConnectionError` raised by `get_api_answer` on a network failure. -/
def connError (cfg : Config) (t : JValue) (e : String) : PyError :=
  ⟨.ConnectionError, "Сбой работы API. Ошибка: " ++ e ++ ". " ++ requestContext cfg t⟩

/-- The `APIResponseError` raised by `get_api_answer` on a non-OK status. -/
def respError (cfg : Config) (t : JValue) (status : Nat) (reason text : String) : PyError :=
  ⟨.APIResponseError,
    "Ошибка HTTP " ++ toString status ++ ". Причина: " ++ reason ++
      ". Текст ответа: " ++ text ++ ". " ++ requestContext cfg t⟩

/-- `get_api_answer(timestamp)`: raises `ConnectionError` when the request
fails, `APIResponseError` when the status code is not `HTTPStatus.OK` (200),
and otherwise returns the parsed JSON body. -/
def get_api_answer (cfg : Config) (timestamp : JValue) (out : HttpOutcome) :
    Except PyError JValue :=
  match out with
  | .fail e => .error (connError cfg timestamp e)
  | .ok status reason text js =>
    if status ≠ 200 then .error (respError cfg timestamp status reason text)
    else .ok js

/-- The `TypeError` for an empty (falsy) API response. -/
def errEmptyResp : PyError :=
  ⟨.TypeError, "Ответ API пустой. Ожидался непустой ответ."⟩

/-- The `TypeError` for a response that is not a dict. -/
def errWrongShape (tn : String) : PyError :=
  ⟨.TypeError, "Ошибка: ожидаемый словарь, а получен тип " ++ tn⟩

/-- The `KeyError` for a response without the `homeworks` key. -/
def errMissingKey : PyError :=
  ⟨.KeyError, "Ошибка: отсутствует ключ \x27homeworks\x27 в ответе API."⟩

/-- The `TypeError` for a `homeworks` value that is not a list. -/
def errWrongType (tn : String) : PyError :=
  ⟨.TypeError, "Ожидался тип list, но получен " ++ tn⟩

/-- `check_response(response)`: validates the API response and returns the
(possibly empty) homeworks list. -/
def check_response (response : JValue) : Except PyError (List JValue) :=
  if pyTruthy response = false then .error errEmptyResp
  else
    match response with
    | .dict _ =>
      match jGet response "homeworks" with
      | none => .error errMissingKey
      | some hv =>
        match hv with
        | .list xs => .ok xs
        | _ => .error (errWrongType (pyTypeName hv))
    | _ => .error (errWrongShape (pyTypeName response))

/-- The `KeyError` for a missing or falsy `homework_name`. -/
def errNameMissing (hw : JValue) : PyError :=
  ⟨.KeyError, "Ошибка: в данных отсутствует ключ \x27homework_name\x27. Данные: " ++ pyRepr hw⟩

/-- The `KeyError` for a missing `status`. -/
def errStatusMissing (hw : JValue) : PyError :=
  ⟨.KeyError, "Ошибка: в данных отсутствует ключ \x27status\x27. Данные: " ++ pyRepr hw⟩

/-- The `KeyError` for a status absent from `HOMEWORK_VERDICTS`. -/
def errUnknownStatus (st : JValue) : PyError :=
  ⟨.KeyError, "Неизвестный статус домашней работы: " ++ pyStr st⟩

/-- The `TypeError` Python raises when the status value is unhashable, so
that `status not in HOMEWORK_VERDICTS` itself fails. -/
def errUnhashable (tn : String) : PyError :=
  ⟨.TypeError, "unhashable type: " ++ tn⟩

/-- `parse_status(homework)`: validates the record and builds the
notification message.  `homework.get` conflates an absent key with a stored
JSON `null` (both are Python `None`), which the patterns reflect. -/
def parse_status (homework : JValue) : Except PyError String :=
  match jGet homework "homework_name" with
  | none => .error (errNameMissing homework)
  | some nv =>
    if pyTruthy nv = false then .error (errNameMissing homework)
    else
      match jGet homework "status" with
      | none => .error (errStatusMissing homework)
      | some .null => .error (errStatusMissing homework)
      | some (.list _) => .error (errUnhashable "\x27list\x27")
      | some (.dict _) => .error (errUnhashable "\x27dict\x27")
      | some (.str s) =>
        match HOMEWORK_VERDICTS.lookup s with
        | some verdict =>
          .ok ("Изменился статус проверки работы \x22" ++ pyStr nv ++ "\x22. " ++ verdict)
        | none => .error (errUnknownStatus (.str s))
      | some st => .error (errUnknownStatus st)

/-- The local state of `main`: the poll cursor `timestamp`, the value of
`homeworks_status_dict.get('verdict')`, and the local variable `last_verdict`
used by the `except` handler (`none` means the variable is unbound, which is
how `main` starts: it is only ever assigned inside the handler). -/
structure PollState where
  timestamp : JValue
  verdict_dict : Option String
  last_verdict : Option String

/-- The environment of one loop iteration: the outcome of the HTTP request
and the outcomes of the (at most two) `bot.send_message` calls — `send1` for
the call inside the `try` block, `send2` for the call inside the `except`
handler. -/
structure Env where
  http : HttpOutcome
  send1 : Except PyError Unit
  send2 : Except PyError Unit

/-- The observable result of one loop iteration: the next state (`none` when
an uncaught exception terminates the loop), the uncaught exception if any,
the messages passed to `send_message`, the loop-level `logging.error` lines,
and the `time.sleep` durations performed (in order). -/
structure IterOut where
  next : Option PollState
  crash : Option PyError
  attempted : List String
  logs : List String
  sleeps : List Nat

/-- Python `str(e)` of an exception: for `KeyError` this is the `repr` of the
message (Python quotes the single argument), otherwise the message itself. -/
def pyStrOfError (e : PyError) : String :=
  match e.kind with
  | .KeyError => strRepr e.msg
  | _ => e.msg

/-- The failure message built by the `except` handler. -/
def failureMessage (err : PyError) : String :=
  "Сбой в работе программы: " ++ pyStrOfError err

/-- The `UnboundLocalError` raised when the handler reads `last_verdict`
before any assignment to it. -/
def unboundLocalErr : PyError :=
  ⟨.UnboundLocalError,
    "cannot access local variable \x27last_verdict\x27 where it is not associated with a value"⟩

/-- The `except Exception` handler of `main`, followed by the `finally`
block.  It logs the failure message; then reads `last_verdict`, which raises
`UnboundLocalError` when the variable is unbound (the `finally` sleep still
runs, after which the exception terminates the loop).  When `last_verdict` is
bound and differs from the message, the message is sent (a raising send
propagates after the `finally` sleep) and `last_verdict` is updated; the
handler then sleeps and the `finally` block sleeps again. -/
def exceptBranch (s : PollState) (e : Env) (err : PyError) : IterOut :=
  let message := failureMessage err
  match s.last_verdict with
  | none =>
    { next := none, crash := some unboundLocalErr, attempted := [],
      logs := [message], sleeps := [RETRY_PERIOD] }
  | some lv =>
    if lv ≠ message then
      match send_message e.send2 message with
      | .error err2 =>
        { next := none, crash := some err2, attempted := [message],
          logs := [message], sleeps := [RETRY_PERIOD] }
      | .ok _ =>
        { next := some { s with last_verdict := some message }, crash := none,
          attempted := [message], logs := [message],
          sleeps := [RETRY_PERIOD, RETRY_PERIOD] }
    else
      { next := some s, crash := none, attempted := [], logs := [message],
        sleeps := [RETRY_PERIOD, RETRY_PERIOD] }

/-- Step 3 of the loop body: the first homework's parsed status, or the fixed
message when the list is empty. -/
def verdictOf (homeworks : List JValue) : Except PyError String :=
  match homeworks with
  | [] => .ok "Нет новых статусов."
  | hw :: _ => parse_status hw

/-- One iteration of the `while True` loop of `main`: fetch, validate, parse,
compare against `homeworks_status_dict.get('verdict')`, send on difference,
and on success update the stored verdict and advance `timestamp` to the
response's `current_date` (falling back to the old value); any exception in
these steps is handled by `exceptBranch`; the `finally` block sleeps
`RETRY_PERIOD` on every path. -/
def mainIter (cfg : Config) (s : PollState) (e : Env) : IterOut :=
  match get_api_answer cfg s.timestamp e.http with
  | .error err => exceptBranch s e err
  | .ok response =>
    match check_response response with
    | .error err => exceptBranch s e err
    | .ok homeworks =>
      match verdictOf homeworks with
      | .error err => exceptBranch s e err
      | .ok verdict =>
        if s.verdict_dict ≠ some verdict then
          match send_message e.send1 verdict with
          | .error err =>
            let o := exceptBranch s e err
            { o with attempted := verdict :: o.attempted }
          | .ok (true, _) =>
            { next := some { timestamp := jGetD response "current_date" s.timestamp,
                             verdict_dict := some verdict,
                             last_verdict := s.last_verdict },
              crash := none, attempted := [verdict], logs := [],
              sleeps := [RETRY_PERIOD] }
          | .ok (false, _) =>
            { next := some s, crash := none, attempted := [verdict], logs := [],
              sleeps := [RETRY_PERIOD] }
        else
          { next := some s, crash := none, attempted := [], logs := [],
            sleeps := [RETRY_PERIOD] }

/-- The verdict computed by steps 1–3 of an iteration, when they all
succeed (`none` when some step raises).  It depends only on the HTTP
outcome. -/
def computeVerdict (e : Env) : Option String :=
  match e.http with
  | .fail _ => none
  | .ok status _ _ js =>
    if status ≠ 200 then none
    else
      match check_response js with
      | .error _ => none
      | .ok homeworks =>
        match verdictOf homeworks with
        | .ok v => some v
        | .error _ => none

/-- The states an execution of `main` can be in at the top of the loop:
`main` enters the loop with an integer `timestamp`, an empty
`homeworks_status_dict` and `last_verdict` unbound, and thereafter each
iteration that does not crash continues with the state `mainIter` yields. -/
inductive Reachable (cfg : Config) : PollState → Prop where
  | init (t0 : Int) : Reachable cfg ⟨JValue.int t0, none, none⟩
  | step {s s' : PollState} (e : Env) :
      Reachable cfg s → (mainIter cfg s e).next = some s' → Reachable cfg s'

/-- The parsed JSON body of a completed HTTP outcome. -/
def httpJson : Env → JValue
  | ⟨.ok _ _ _ js, _, _⟩ => js
  | ⟨.fail _, _, _⟩ => .null

/-- Truthiness of `homework.get('homework_name')` (false when absent). -/
def nameTruthy (hw : JValue) : Bool :=
  match jGet hw "homework_name" with
  | some nv => pyTruthy nv
  | none => false

section BridgeLemmas

variable (cfg : Config) (s : PollState) (e : Env)

lemma exceptBranch_lv_none (err : PyError) (h : s.last_verdict = none) :
    exceptBranch s e err =
      { next := none, crash := some unboundLocalErr, attempted := [],
        logs := [failureMessage err], sleeps := [RETRY_PERIOD] } := by
  unfold exceptBranch
  rw [h]

lemma exceptBranch_next (err : PyError) (s' : PollState)
    (h : (exceptBranch s e err).next = some s') :
    s'.verdict_dict = s.verdict_dict ∧ s'.timestamp = s.timestamp := by
  unfold exceptBranch at h
  rcases hlv : s.last_verdict with _ | lv <;> rw [hlv] at h <;> simp only [] at h
  · simp at h
  · by_cases heq : lv = failureMessage err
    · rw [if_neg (fun hne => hne heq)] at h
      simp only [Option.some.injEq] at h
      rw [← h]
      exact ⟨rfl, rfl⟩
    · rw [if_pos heq] at h
      rcases hs2 : send_message e.send2 (failureMessage err) with err2 | ok2 <;>
        rw [hs2] at h
      · simp at h
      · simp only [Option.some.injEq] at h
        rw [← h]
        exact ⟨rfl, rfl⟩

lemma mainIter_except (h : computeVerdict e = none) :
    ∃ err, mainIter cfg s e = exceptBranch s e err := by
  unfold computeVerdict at h
  unfold mainIter get_api_answer
  rcases he : e.http with et | ⟨st, r, t, js⟩ <;> simp only [he] at h ⊢
  · exact ⟨connError cfg s.timestamp et, rfl⟩
  · by_cases h200 : st = 200
    · subst h200
      simp only [ne_eq, not_true_eq_false, reduceIte] at h ⊢
      rcases hc : check_response js with err | hws <;> simp only [hc] at h ⊢
      · exact ⟨err, rfl⟩
      · rcases hv : verdictOf hws with err | v <;> simp only [hv] at h ⊢
        · exact ⟨err, rfl⟩
        · simp at h
    · simp only [if_pos h200]
      exact ⟨respError cfg s.timestamp st r t, rfl⟩

lemma computeVerdict_some_elim {v : String} (h : computeVerdict e = some v) :
    ∃ st r t js, e.http = .ok st r t js ∧ st = 200 ∧
      ∃ hws, check_response js = .ok hws ∧ verdictOf hws = .ok v := by
  unfold computeVerdict at h
  rcases he : e.http with et | ⟨st, r, t, js⟩ <;> simp only [he] at h
  · simp at h
  · by_cases h200 : st = 200
    · subst h200
      simp only [ne_eq, not_true_eq_false, reduceIte] at h
      rcases hc : check_response js with err | hws <;> simp only [hc] at h
      · simp at h
      · rcases hv : verdictOf hws with err | v' <;> simp only [hv] at h
        · simp at h
        · simp at h
          subst h
          exact ⟨200, r, t, js, rfl, rfl, hws, hc, hv⟩
    · rw [if_pos h200] at h
      simp at h

lemma mainIter_noattempt {v : String} (h : computeVerdict e = some v)
    (hv : s.verdict_dict = some v) :
    mainIter cfg s e =
      { next := some s, crash := none, attempted := [], logs := [],
        sleeps := [RETRY_PERIOD] } := by
  obtain ⟨st, r, t, js, he, h200, hws, hc, hvv⟩ := computeVerdict_some_elim e h
  subst h200
  unfold mainIter get_api_answer
  simp only [he, ne_eq, not_true_eq_false, reduceIte, hc, hvv]
  simp [hv]

lemma mainIter_send_ok {v : String} (h : computeVerdict e = some v)
    (hv : s.verdict_dict ≠ some v) (hs : e.send1 = .ok ()) :
    mainIter cfg s e =
      { next := some { timestamp := jGetD (httpJson e) "current_date" s.timestamp,
                       verdict_dict := some v, last_verdict := s.last_verdict },
        crash := none, attempted := [v], logs := [], sleeps := [RETRY_PERIOD] } := by
  obtain ⟨st, r, t, js, he, h200, hws, hc, hvv⟩ := computeVerdict_some_elim e h
  subst h200
  have hj : httpJson e = js := by
    unfold httpJson
    rcases e with ⟨http, s1, s2⟩
    simp only at he
    rw [he]
  unfold mainIter get_api_answer
  simp only [he, ne_eq, not_true_eq_false, reduceIte, hc, hvv]
  rw [if_pos hv]
  simp only [hs, send_message, hj]

lemma mainIter_send_false {v : String} {err : PyError} (h : computeVerdict e = some v)
    (hv : s.verdict_dict ≠ some v) (hs : e.send1 = .error err)
    (hk : err.kind = .ApiException ∨ err.kind = .RequestException) :
    mainIter cfg s e =
      { next := some s, crash := none, attempted := [v], logs := [],
        sleeps := [RETRY_PERIOD] } := by
  obtain ⟨st, r, t, js, he, h200, hws, hc, hvv⟩ := computeVerdict_some_elim e h
  subst h200
  unfold mainIter get_api_answer
  simp only [he, ne_eq, not_true_eq_false, reduceIte, hc, hvv]
  rw [if_pos hv]
  simp only [hs, send_message]
  rcases hk with hk | hk <;> simp [hk]

lemma mainIter_send_raise {v : String} {err : PyError} (h : computeVerdict e = some v)
    (hv : s.verdict_dict ≠ some v) (hs : e.send1 = .error err)
    (hk1 : err.kind ≠ .ApiException) (hk2 : err.kind ≠ .RequestException) :
    mainIter cfg s e =
      { exceptBranch s e err with
          attempted := v :: (exceptBranch s e err).attempted } := by
  obtain ⟨st, r, t, js, he, h200, hws, hc, hvv⟩ := computeVerdict_some_elim e h
  subst h200
  unfold mainIter get_api_answer
  simp only [he, ne_eq, not_true_eq_false, reduceIte, hc, hvv]
  rw [if_pos hv]
  simp only [hs, send_message]
  simp [hk1, hk2]

end BridgeLemmas

lemma mainIter_preserves_lv_none (cfg : Config) (s : PollState) (e : Env)
    (s' : PollState) (h0 : s.last_verdict = none)
    (h : (mainIter cfg s e).next = some s') : s'.last_verdict = none := by
  rcases hc : computeVerdict e with _ | v
  · obtain ⟨err, heq⟩ := mainIter_except cfg s e hc
    rw [heq, exceptBranch_lv_none s e err h0] at h
    simp at h
  · by_cases hv : s.verdict_dict = some v
    · rw [mainIter_noattempt cfg s e hc hv] at h
      simp at h
      rw [← h]
      exact h0
    · rcases hs : e.send1 with err | u
      · by_cases hk : err.kind = .ApiException ∨ err.kind = .RequestException
        · rw [mainIter_send_false cfg s e hc hv hs hk] at h
          simp at h
          rw [← h]
          exact h0
        · push_neg at hk
          rw [mainIter_send_raise cfg s e hc hv hs hk.1 hk.2] at h
          simp only at h
          rw [exceptBranch_lv_none s e err h0] at h
          simp at h
      · cases u
        rw [mainIter_send_ok cfg s e hc hv hs] at h
        simp at h
        rw [← h]
        exact h0

lemma reachable_lv_none {cfg : Config} {s : PollState} (h : Reachable cfg s) :
    s.last_verdict = none := by
  induction h with
  | init t0 => rfl
  | step e _ hnext ih => exact mainIter_preserves_lv_none _ _ _ _ ih hnext

/-- Claim C5: `check_response` raises a typed validation error for each of
the four defects — empty response, wrong shape (not a dict), missing
`homeworks` key, `homeworks` not a list — the four resulting error values are
pairwise distinct (so the caller can distinguish the cases), and on a
well-shaped input it returns the (possibly empty) homeworks list. -/
theorem claim_C5 (response : JValue) :
    (pyTruthy response = false → check_response response = .error errEmptyResp)
    ∧ (pyTruthy response = true → response.isDict = false →
        check_response response = .error (errWrongShape (pyTypeName response)))
    ∧ (pyTruthy response = true → response.isDict = true →
        jGet response "homeworks" = none → check_response response = .error errMissingKey)
    ∧ (∀ hv, pyTruthy response = true → jGet response "homeworks" = some hv →
        hv.isList = false → check_response response = .error (errWrongType (pyTypeName hv)))
    ∧ (∀ xs, pyTruthy response = true → jGet response "homeworks" = some (.list xs) →
        check_response response = .ok xs)
    ∧ (∀ v w : JValue,
        errEmptyResp ≠ errWrongShape (pyTypeName v)
        ∧ errEmptyResp ≠ errMissingKey
        ∧ errEmptyResp ≠ errWrongType (pyTypeName v)
        ∧ errWrongShape (pyTypeName v) ≠ errMissingKey
        ∧ errWrongShape (pyTypeName v) ≠ errWrongType (pyTypeName w)
        ∧ errMissingKey ≠ errWrongType (pyTypeName v)) := by
  refine ⟨?_, ?_, ?_, ?_, ?_, ?_⟩
  · intro h
    unfold check_response
    rw [if_pos h]
  · intro h1 h2
    unfold check_response
    rw [if_neg (by simp [h1])]
    cases response <;> simp_all [JValue.isDict]
  · intro h1 h2 h3
    unfold check_response
    rw [if_neg (by simp [h1])]
    cases response <;> simp_all [JValue.isDict, h3]
  · intro hv h1 h2 h3
    unfold check_response
    rw [if_neg (by simp [h1])]
    cases response <;> simp_all [jGet]
    cases hv <;> simp_all [JValue.isList]
  · intro xs h1 h2
    unfold check_response
    rw [if_neg (by simp [h1])]
    cases response <;> simp_all [jGet]
  · intro v w
    refine ⟨?_, ?_, ?_, ?_, ?_, ?_⟩ <;> cases v <;> cases w <;>
      (try simp only [pyTypeName]) <;> decide

/-- Witness for claim C5: each of the four defects and the success case at a
concrete input, plus one concrete distinctness fact. -/
theorem claim_C5_witness :
    check_response (.dict []) = .error errEmptyResp
    ∧ check_response (.list [.int 1]) = .error (errWrongShape (pyTypeName (.list [.int 1])))
    ∧ check_response (.dict [("foo", .int 1)]) = .error errMissingKey
    ∧ check_response (.dict [("homeworks", .int 7)]) = .error (errWrongType (pyTypeName (.int 7)))
    ∧ check_response (.dict [("homeworks", .list [])]) = .ok []
    ∧ errMissingKey ≠ errWrongType (pyTypeName (.int 7)) :=
  ⟨(claim_C5 (.dict [])).1 rfl,
   (claim_C5 (.list [.int 1])).2.1 rfl rfl,
   (claim_C5 (.dict [("foo", .int 1)])).2.2.1 rfl rfl rfl,
   (claim_C5 (.dict [("homeworks", .int 7)])).2.2.2.1 (.int 7) rfl rfl rfl,
   (claim_C5 (.dict [("homeworks", .list [])])).2.2.2.2.1 [] rfl rfl,
   ((claim_C5 (.dict [])).2.2.2.2.2 (.int 7) (.int 7)).2.2.2.2.2⟩

/-- Claim C6 fails as stated: for the record
`{"homework_name": "x", "status": []}` the status is not a key of
`HOMEWORK_VERDICTS`, yet `parse_status` raises Python's generic
`TypeError("unhashable type: 'list'")` from the `not in HOMEWORK_VERDICTS`
test — an error that does not name any field and differs from all three
field-identifying errors of the function. -/
theorem claim_C6_counterexample :
    parse_status (.dict [("homework_name", .str "x"), ("status", .list [])])
      = .error (errUnhashable "\x27list\x27")
    ∧ (errUnhashable "\x27list\x27").msg = "unhashable type: \x27list\x27"
    ∧ errUnhashable "\x27list\x27"
        ≠ errNameMissing (.dict [("homework_name", .str "x"), ("status", .list [])])
    ∧ errUnhashable "\x27list\x27"
        ≠ errStatusMissing (.dict [("homework_name", .str "x"), ("status", .list [])])
    ∧ errUnhashable "\x27list\x27" ≠ errUnknownStatus (.list []) := by
  refine ⟨rfl, rfl, by decide, by decide, by decide⟩

lemma parse_status_name_missing (hw : JValue) (h : nameTruthy hw = false) :
    parse_status hw = .error (errNameMissing hw) := by
  unfold nameTruthy at h
  unfold parse_status
  rcases hn : jGet hw "homework_name" with _ | nv <;> simp only [hn] at h ⊢
  rw [if_pos h]

lemma parse_status_status_missing (hw : JValue) (h1 : nameTruthy hw = true)
    (h2 : jGet hw "status" = none ∨ jGet hw "status" = some .null) :
    parse_status hw = .error (errStatusMissing hw) := by
  unfold nameTruthy at h1
  unfold parse_status
  rcases hn : jGet hw "homework_name" with _ | nv <;> simp only [hn] at h1 ⊢
  · cases h1
  · rw [if_neg (by simp [h1])]
    rcases h2 with h2 | h2 <;> simp only [h2]

lemma parse_status_past_name (hw nv : JValue) (hn : jGet hw "homework_name" = some nv)
    (ht : pyTruthy nv = true) (st : JValue) (hs : jGet hw "status" = some st) :
    parse_status hw =
      (match st with
        | .null => .error (errStatusMissing hw)
        | .list _ => .error (errUnhashable "\x27list\x27")
        | .dict _ => .error (errUnhashable "\x27dict\x27")
        | .str s =>
          match HOMEWORK_VERDICTS.lookup s with
          | some verdict =>
            .ok ("Изменился статус проверки работы \x22" ++ pyStr nv ++ "\x22. " ++ verdict)
          | none => .error (errUnknownStatus (.str s))
        | other => .error (errUnknownStatus other)) := by
  unfold parse_status
  simp only [hn]
  rw [if_neg (by simp [ht])]
  simp only [hs]
  cases st <;> rfl

lemma parse_status_ok_iff (hw : JValue) :
    (∃ m, parse_status hw = .ok m) ↔
      nameTruthy hw = true
        ∧ ∃ st, jGet hw "status" = some (.str st) ∧ (HOMEWORK_VERDICTS.lookup st).isSome := by
  constructor
  · rintro ⟨m, hm⟩
    unfold parse_status at hm
    rcases hn : jGet hw "homework_name" with _ | nv <;> simp only [hn] at hm
    · cases hm
    · by_cases ht : pyTruthy nv = true
      · rw [if_neg (by simp [ht])] at hm
        have h1 : nameTruthy hw = true := by
          unfold nameTruthy
          rw [hn]
          exact ht
        rcases hs : jGet hw "status" with _ | st <;> simp only [hs] at hm
        · cases hm
        · cases st with
          | str s =>
            rcases hl : HOMEWORK_VERDICTS.lookup s with _ | verdict <;>
              simp only [hl] at hm
            · cases hm
            · exact ⟨h1, s, rfl, by rw [hl]; rfl⟩
          | null => cases hm
          | bool b => cases hm
          | int n => cases hm
          | list xs => cases hm
          | dict xs => cases hm
      · simp only [Bool.not_eq_true] at ht
        rw [if_pos ht] at hm
        cases hm
  · rintro ⟨h1, st, hs, hl⟩
    unfold nameTruthy at h1
    rcases hn : jGet hw "homework_name" with _ | nv <;> simp only [hn] at h1
    · cases h1
    · rcases hlv : HOMEWORK_VERDICTS.lookup st with _ | verdict <;> rw [hlv] at hl
      · cases hl
      · refine ⟨"Изменился статус проверки работы \x22" ++ pyStr nv ++ "\x22. " ++ verdict, ?_⟩
        rw [parse_status_past_name hw nv hn h1 (.str st) hs]
        simp only [hlv]

/-- Claim C6 (amended): `parse_status` returns a message exactly when the
record has a truthy `homework_name` and a `status` that is a string key of
`HOMEWORK_VERDICTS`; a missing/empty name, a missing status, and a scalar
status outside the table each raise a `KeyError` identifying the defective
field, while a list- or dict-valued status (also not a key of the table)
raises the generic unhashable-type `TypeError`, which does not name the
field; in every violation case no message is returned. -/
theorem claim_C6 (hw : JValue) :
    ((∃ m, parse_status hw = .ok m) ↔
      nameTruthy hw = true
        ∧ ∃ st, jGet hw "status" = some (.str st) ∧ (HOMEWORK_VERDICTS.lookup st).isSome)
    ∧ (nameTruthy hw = false → parse_status hw = .error (errNameMissing hw))
    ∧ (nameTruthy hw = true →
        (jGet hw "status" = none ∨ jGet hw "status" = some .null) →
        parse_status hw = .error (errStatusMissing hw))
    ∧ (∀ st, nameTruthy hw = true → jGet hw "status" = some (.str st) →
        HOMEWORK_VERDICTS.lookup st = none →
        parse_status hw = .error (errUnknownStatus (.str st)))
    ∧ (∀ b, nameTruthy hw = true → jGet hw "status" = some (.bool b) →
        parse_status hw = .error (errUnknownStatus (.bool b)))
    ∧ (∀ n, nameTruthy hw = true → jGet hw "status" = some (.int n) →
        parse_status hw = .error (errUnknownStatus (.int n)))
    ∧ (∀ xs, nameTruthy hw = true → jGet hw "status" = some (.list xs) →
        parse_status hw = .error (errUnhashable "\x27list\x27"))
    ∧ (∀ xs, nameTruthy hw = true → jGet hw "status" = some (.dict xs) →
        parse_status hw = .error (errUnhashable "\x27dict\x27")) := by
  have hname : ∀ (h1 : nameTruthy hw = true),
      ∃ nv, jGet hw "homework_name" = some nv ∧ pyTruthy nv = true := by
    intro h1
    unfold nameTruthy at h1
    rcases hn : jGet hw "homework_name" with _ | nv <;> rw [hn] at h1
    · cases h1
    · exact ⟨nv, rfl, h1⟩
  refine ⟨parse_status_ok_iff hw, parse_status_name_missing hw, ?_, ?_, ?_, ?_, ?_, ?_⟩
  · exact parse_status_status_missing hw
  · intro st h1 hs hl
    obtain ⟨nv, hn, ht⟩ := hname h1
    rw [parse_status_past_name hw nv hn ht (.str st) hs]
    simp only [hl]
  · intro b h1 hs
    obtain ⟨nv, hn, ht⟩ := hname h1
    rw [parse_status_past_name hw nv hn ht (.bool b) hs]
  · intro n h1 hs
    obtain ⟨nv, hn, ht⟩ := hname h1
    rw [parse_status_past_name hw nv hn ht (.int n) hs]
  · intro xs h1 hs
    obtain ⟨nv, hn, ht⟩ := hname h1
    rw [parse_status_past_name hw nv hn ht (.list xs) hs]
  · intro xs h1 hs
    obtain ⟨nv, hn, ht⟩ := hname h1
    rw [parse_status_past_name hw nv hn ht (.dict xs) hs]

/-- Witness for claim C6: the success case, the three field-identifying
errors, and the unhashable case, each at a concrete record. -/
theorem claim_C6_witness :
    (∃ m, parse_status (.dict [("homework_name", .str "p"), ("status", .str "rejected")]) = .ok m)
    ∧ parse_status (.dict [("status", .str "approved")])
        = .error (errNameMissing (.dict [("status", .str "approved")]))
    ∧ parse_status (.dict [("homework_name", .str "p")])
        = .error (errStatusMissing (.dict [("homework_name", .str "p")]))
    ∧ parse_status (.dict [("homework_name", .str "p"), ("status", .str "weird")])
        = .error (errUnknownStatus (.str "weird"))
    ∧ parse_status (.dict [("homework_name", .str "p"), ("status", .dict [])])
        = .error (errUnhashable "\x27dict\x27") :=
  ⟨(claim_C6 (.dict [("homework_name", .str "p"), ("status", .str "rejected")])).1.mpr
      ⟨rfl, "rejected", rfl, rfl⟩,
   (claim_C6 (.dict [("status", .str "approved")])).2.1 rfl,
   (claim_C6 (.dict [("homework_name", .str "p")])).2.2.1 rfl (Or.inl rfl),
   (claim_C6 (.dict [("homework_name", .str "p"), ("status", .str "weird")])).2.2.2.1
      "weird" rfl rfl rfl,
   (claim_C6 (.dict [("homework_name", .str "p"), ("status", .dict [])])).2.2.2.2.2.2.2
      [] rfl rfl⟩

/-- Claim C8: `send_message` catches every delivery failure of the kinds the
claim names (a Telegram `ApiException` or a `requests.RequestException`),
logs a diagnostic, and returns `false`; it returns `true` exactly when the
message was delivered. -/
theorem claim_C8 (callResult : Except PyError Unit) (message : String) :
    (callResult = .ok () → send_message callResult message =
      .ok (true, ["Сообщение успешно отправлено: " ++ message]))
    ∧ (∀ err, callResult = .error err →
        (err.kind = .ApiException ∨ err.kind = .RequestException) →
        ∃ logs, send_message callResult message = .ok (false, logs) ∧ logs ≠ [])
    ∧ ((∃ logs, send_message callResult message = .ok (true, logs)) ↔
        callResult = .ok ()) := by
  refine ⟨?_, ?_, ?_, ?_⟩
  · intro h
    rw [h]
    rfl
  · rintro err rfl hk
    rcases hk with hk | hk
    · exact ⟨["Ошибка API Telegram: " ++ err.msg], by simp [send_message, hk], by simp⟩
    · refine ⟨["Ошибка сети при отправке сообщения: " ++ err.msg], ?_, by simp⟩
      simp only [send_message, hk]
      rw [if_neg (by simp [hk])]
      simp
  · rintro ⟨logs, hl⟩
    rcases callResult with err | u
    · by_cases h1 : err.kind = .ApiException
      · simp [send_message, h1] at hl
      · by_cases h2 : err.kind = .RequestException
        · simp [send_message, h1, h2] at hl
        · simp [send_message, h1, h2] at hl
    · cases u
      rfl
  · rintro rfl
    exact ⟨_, rfl⟩

/-- Witness for claim C8: a delivered message, a channel-level failure and a
transport failure, at concrete inputs. -/
theorem claim_C8_witness :
    send_message (.ok ()) "hi" = .ok (true, ["Сообщение успешно отправлено: hi"])
    ∧ (∃ logs, send_message (.error ⟨.ApiException, "boom"⟩) "hi" = .ok (false, logs) ∧ logs ≠ [])
    ∧ (∃ logs, send_message (.error ⟨.RequestException, "net"⟩) "hi" = .ok (false, logs) ∧ logs ≠ []) :=
  ⟨(claim_C8 (.ok ()) "hi").1 rfl,
   (claim_C8 (.error ⟨.ApiException, "boom"⟩) "hi").2.1 ⟨.ApiException, "boom"⟩ rfl (Or.inl rfl),
   (claim_C8 (.error ⟨.RequestException, "net"⟩) "hi").2.1 ⟨.RequestException, "net"⟩ rfl (Or.inr rfl)⟩

/-- Claim C9 fails as stated: with HTTP status 201 the request completes with
a 2xx status, yet `get_api_answer` raises `APIResponseError` instead of
returning the parsed response — the code tests `status != 200`, not
"non-2xx". -/
theorem claim_C9_counterexample :
    (200 ≤ 201 ∧ 201 < 300)
    ∧ get_api_answer ⟨"tok"⟩ (JValue.int 0) (.ok 201 "Created" "resp-body" (.dict []))
        = .error (respError ⟨"tok"⟩ (JValue.int 0) 201 "Created" "resp-body")
    ∧ (respError ⟨"tok"⟩ (JValue.int 0) 201 "Created" "resp-body").kind
        = .APIResponseError :=
  ⟨by decide, rfl, rfl⟩

/-- Claim C9 (amended): `get_api_answer` raises a connectivity error exactly
when the network request fails, raises a response error carrying the HTTP
status code and body exactly when the request completes with a status other
than 200 OK, and returns the parsed response otherwise; the two error kinds
are distinct from each other and from the downstream validation kinds. -/
theorem claim_C9 (cfg : Config) (t : JValue) (out : HttpOutcome) :
    (∀ emsg, out = .fail emsg →
      get_api_answer cfg t out = .error (connError cfg t emsg)
        ∧ (connError cfg t emsg).kind = .ConnectionError)
    ∧ (∀ st reason text js, out = .ok st reason text js → st ≠ 200 →
        get_api_answer cfg t out = .error (respError cfg t st reason text)
          ∧ (respError cfg t st reason text).kind = .APIResponseError
          ∧ (respError cfg t st reason text).msg =
              "Ошибка HTTP " ++ toString st ++ ". Причина: " ++ reason ++
                ". Текст ответа: " ++ text ++ ". " ++ requestContext cfg t)
    ∧ (∀ st reason text js, out = .ok st reason text js → st = 200 →
        get_api_answer cfg t out = .ok js)
    ∧ (ErrKind.ConnectionError ≠ ErrKind.APIResponseError
        ∧ ErrKind.ConnectionError ≠ ErrKind.TypeError
        ∧ ErrKind.ConnectionError ≠ ErrKind.KeyError
        ∧ ErrKind.APIResponseError ≠ ErrKind.TypeError
        ∧ ErrKind.APIResponseError ≠ ErrKind.KeyError) := by
  refine ⟨?_, ?_, ?_, by decide⟩
  · rintro emsg rfl
    exact ⟨rfl, rfl⟩
  · rintro st reason text js rfl hne
    refine ⟨?_, rfl, rfl⟩
    show (if st ≠ 200 then Except.error (respError cfg t st reason text)
        else Except.ok js) = Except.error (respError cfg t st reason text)
    rw [if_pos hne]
  · rintro st reason text js rfl h200
    subst h200
    rfl

/-- Witness for claim C9 (amended): the three outcomes at concrete inputs. -/
theorem claim_C9_witness :
    get_api_answer ⟨"tok"⟩ (JValue.int 7) (.fail "timeout")
      = .error (connError ⟨"tok"⟩ (JValue.int 7) "timeout")
    ∧ get_api_answer ⟨"tok"⟩ (JValue.int 7) (.ok 404 "Not Found" "nope" (.dict []))
        = .error (respError ⟨"tok"⟩ (JValue.int 7) 404 "Not Found" "nope")
    ∧ get_api_answer ⟨"tok"⟩ (JValue.int 7) (.ok 200 "OK" "body" (.dict []))
        = .ok (.dict []) :=
  ⟨((claim_C9 ⟨"tok"⟩ (JValue.int 7) (.fail "timeout")).1 "timeout" rfl).1,
   ((claim_C9 ⟨"tok"⟩ (JValue.int 7) (.ok 404 "Not Found" "nope" (.dict []))).2.1
      404 "Not Found" "nope" (.dict []) rfl (by decide)).1,
   (claim_C9 ⟨"tok"⟩ (JValue.int 7) (.ok 200 "OK" "body" (.dict []))).2.2.1
      200 "OK" "body" (.dict []) rfl rfl⟩

/-- A concrete configuration for witnesses. -/
def cfg0 : Config := ⟨"tok"⟩

/-- The state `main` enters the loop with (started at time 100). -/
def sInit : PollState := ⟨.int 100, none, none⟩

/-- The homework record of spec scenario 3 (unknown status). -/
def hwBad : JValue := .dict [("homework_name", .str "x"), ("status", .str "unknown")]

/-- The API response of spec scenario 3. -/
def respBad : JValue := .dict [("homeworks", .list [hwBad])]

/-- An iteration environment delivering spec scenario 3. -/
def envBad : Env := ⟨.ok 200 "OK" "body" respBad, .ok (), .ok ()⟩

/-- An empty-homeworks API response with a server cursor. -/
def respEmpty : JValue :=
  .dict [("homeworks", .list []), ("current_date", .int 500)]

/-- An iteration environment delivering `respEmpty` with working sends. -/
def envEmpty : Env := ⟨.ok 200 "OK" "body" respEmpty, .ok (), .ok ()⟩

/-- The fixed no-new-statuses verdict. -/
def noNews : String := "Нет новых статусов."

/-- The state after `sInit` processes `envEmpty` successfully. -/
def sAfterEmpty : PollState := ⟨.int 500, some noNews, none⟩

/-- Claim C1 is right and the code is wrong: the spec's intent (also stated
in its §9 note on the broken revision) is that a caught error logs a failure
message, sleeps, and the loop continues with `timestamp` unchanged.  The
code's handler instead reads the local `last_verdict`, which is never bound
before that line, so the first caught error raises `UnboundLocalError`: the
iteration logs the message and performs the `finally` sleep, but the loop
terminates.  Evaluated at a reachable initial state and the field-validation
error of spec scenario 3. -/
theorem claim_C1_bug :
    Reachable cfg0 sInit
    ∧ (mainIter cfg0 sInit envBad).next = none
    ∧ (mainIter cfg0 sInit envBad).crash = some unboundLocalErr
    ∧ (mainIter cfg0 sInit envBad).logs =
        ["Сбой в работе программы: \x27Неизвестный статус домашней работы: unknown\x27"]
    ∧ (mainIter cfg0 sInit envBad).sleeps = [RETRY_PERIOD] :=
  ⟨Reachable.init 100, rfl, by decide, by decide, by decide⟩

/-- Claim C2: in every reachable iteration, a notification is attempted iff
the newly computed verdict differs from the stored last-delivered verdict
(`homeworks_status_dict.get('verdict')`), and after a successful delivery an
identical verdict in the next iteration is not re-notified. -/
theorem claim_C2 (cfg : Config) (s : PollState) (e : Env)
    (hreach : Reachable cfg s) :
    ((mainIter cfg s e).attempted ≠ [] ↔
      ∃ v, computeVerdict e = some v ∧ s.verdict_dict ≠ some v)
    ∧ (∀ e' s' v, (mainIter cfg s e).next = some s' → computeVerdict e = some v →
        e.send1 = .ok () → computeVerdict e' = some v →
        (mainIter cfg s' e').attempted = []) := by
  have hlv : s.last_verdict = none := reachable_lv_none hreach
  constructor
  · constructor
    · intro hne
      rcases hc : computeVerdict e with _ | v
      · obtain ⟨err, heq⟩ := mainIter_except cfg s e hc
        rw [heq, exceptBranch_lv_none s e err hlv] at hne
        simp at hne
      · by_cases hv : s.verdict_dict = some v
        · rw [mainIter_noattempt cfg s e hc hv] at hne
          simp at hne
        · exact ⟨v, rfl, hv⟩
    · rintro ⟨v, hc, hv⟩
      rcases hs : e.send1 with err | u
      · by_cases hk : err.kind = .ApiException ∨ err.kind = .RequestException
        · rw [mainIter_send_false cfg s e hc hv hs hk]
          simp
        · push_neg at hk
          rw [mainIter_send_raise cfg s e hc hv hs hk.1 hk.2]
          simp
      · cases u
        rw [mainIter_send_ok cfg s e hc hv hs]
        simp
  · intro e' s' v hnext hc hs1 hc'
    have hvd : s'.verdict_dict = some v := by
      by_cases hv : s.verdict_dict = some v
      · rw [mainIter_noattempt cfg s e hc hv] at hnext
        simp at hnext
        rw [← hnext]
        exact hv
      · rw [mainIter_send_ok cfg s e hc hv hs1] at hnext
        simp at hnext
        rw [← hnext]
    rw [mainIter_noattempt cfg s' e' hc' hvd]

/-- Witness for claim C2: from the initial state the fixed no-new-statuses
verdict is attempted once; after its successful delivery the identical
verdict in the next iteration is not attempted. -/
theorem claim_C2_witness :
    (mainIter cfg0 sInit envEmpty).attempted ≠ []
    ∧ (mainIter cfg0 sAfterEmpty envEmpty).attempted = [] :=
  ⟨(claim_C2 cfg0 sInit envEmpty (Reachable.init 100)).1.mpr
      ⟨noNews, rfl, by decide⟩,
   (claim_C2 cfg0 sInit envEmpty (Reachable.init 100)).2 envEmpty sAfterEmpty
      noNews rfl rfl rfl rfl⟩

/-- The response of spec scenario 1. -/
def r3 : JValue :=
  .dict [("homeworks",
          .list [.dict [("homework_name", .str "proj1"), ("status", .str "approved")]]),
         ("current_date", .int 1000)]

/-- The message of spec scenario 1. -/
def m3 : String :=
  "Изменился статус проверки работы \x22proj1\x22. Работа проверена: ревьюеру всё понравилось. Ура!"

/-- Claim C3: for the scenario-1 response the iteration computes exactly the
expected message and, after a successful notification, advances `timestamp`
to 1000; and in general a successfully parsed message is a function only of
the record's `homework_name` and `status` fields. -/
theorem claim_C3 :
    (∀ cfg (s : PollState) reason text (e : Env),
      e.http = .ok 200 reason text r3 → e.send1 = .ok () →
      s.verdict_dict ≠ some m3 →
      mainIter cfg s e =
        { next := some { timestamp := .int 1000, verdict_dict := some m3,
                         last_verdict := s.last_verdict },
          crash := none, attempted := [m3], logs := [], sleeps := [RETRY_PERIOD] })
    ∧ (∀ hw hw' m, parse_status hw = .ok m →
        jGet hw' "homework_name" = jGet hw "homework_name" →
        jGet hw' "status" = jGet hw "status" →
        parse_status hw' = .ok m) := by
  constructor
  · intro cfg s reason text e he hs hv
    have hc : computeVerdict e = some m3 := by
      unfold computeVerdict
      rw [he]
      rfl
    have hj : httpJson e = r3 := by
      unfold httpJson
      rcases e with ⟨http, s1, s2⟩
      simp only at he
      rw [he]
    rw [mainIter_send_ok cfg s e hc hv hs, hj]
    rfl
  · intro hw hw' m hm hname hstatus
    unfold parse_status at hm
    rcases hn : jGet hw "homework_name" with _ | nv <;> simp only [hn] at hm
    · cases hm
    · by_cases ht : pyTruthy nv = true
      · rw [if_neg (by simp [ht])] at hm
        rcases hs : jGet hw "status" with _ | st <;> simp only [hs] at hm
        · cases hm
        · rw [hn] at hname
          rw [hs] at hstatus
          cases st with
          | str s =>
            rcases hl : HOMEWORK_VERDICTS.lookup s with _ | verdict <;>
              simp only [hl] at hm
            · cases hm
            · rw [parse_status_past_name hw' nv hname ht (.str s) hstatus]
              simp only [hl]
              exact hm
          | null => cases hm
          | bool b => cases hm
          | int n => cases hm
          | list xs => cases hm
          | dict xs => cases hm
      · simp only [Bool.not_eq_true] at ht
        rw [if_pos ht] at hm
        cases hm

/-- Witness for claim C3: scenario 1 executed from the initial state, and
the determinism clause applied to two records sharing name and status. -/
theorem claim_C3_witness :
    mainIter cfg0 sInit ⟨.ok 200 "OK" "body" r3, .ok (), .ok ()⟩ =
      { next := some { timestamp := .int 1000, verdict_dict := some m3,
                       last_verdict := none },
        crash := none, attempted := [m3], logs := [], sleeps := [RETRY_PERIOD] }
    ∧ parse_status
        (.dict [("status", .str "approved"), ("homework_name", .str "proj1"),
                ("extra", .int 1)]) = .ok m3 :=
  ⟨claim_C3.1 cfg0 sInit "OK" "body" ⟨.ok 200 "OK" "body" r3, .ok (), .ok ()⟩
      rfl rfl (by decide),
   claim_C3.2
      (.dict [("homework_name", .str "proj1"), ("status", .str "approved")])
      (.dict [("status", .str "approved"), ("homework_name", .str "proj1"),
              ("extra", .int 1)])
      m3 rfl rfl rfl⟩

/-- Claim C4: when notification delivery fails (`send_message` returns
false), the iteration leaves the stored verdict and `timestamp` unchanged;
those fields change only when delivery succeeds; and after a failed
delivery the same verdict is re-attempted on the next difference check. -/
theorem claim_C4 (cfg : Config) (s : PollState) (e : Env) :
    (∀ err s', e.send1 = .error err →
        (err.kind = .ApiException ∨ err.kind = .RequestException) →
        (mainIter cfg s e).next = some s' →
        s'.verdict_dict = s.verdict_dict ∧ s'.timestamp = s.timestamp)
    ∧ (∀ s', (mainIter cfg s e).next = some s' →
        (s'.verdict_dict ≠ s.verdict_dict ∨ s'.timestamp ≠ s.timestamp) →
        e.send1 = .ok ())
    ∧ (∀ v e' err, computeVerdict e = some v → s.verdict_dict ≠ some v →
        e.send1 = .error err →
        (err.kind = .ApiException ∨ err.kind = .RequestException) →
        (mainIter cfg s e).next = some s
          ∧ (computeVerdict e' = some v → v ∈ (mainIter cfg s e').attempted)) := by
  refine ⟨?_, ?_, ?_⟩
  · intro err s' hs hk hnext
    rcases hc : computeVerdict e with _ | v
    · obtain ⟨err2, heq⟩ := mainIter_except cfg s e hc
      rw [heq] at hnext
      exact exceptBranch_next s e err2 s' hnext
    · by_cases hv : s.verdict_dict = some v
      · rw [mainIter_noattempt cfg s e hc hv] at hnext
        simp at hnext
        rw [← hnext]
        exact ⟨rfl, rfl⟩
      · rw [mainIter_send_false cfg s e hc hv hs hk] at hnext
        simp at hnext
        rw [← hnext]
        exact ⟨rfl, rfl⟩
  · intro s' hnext hdiff
    rcases hc : computeVerdict e with _ | v
    · obtain ⟨err2, heq⟩ := mainIter_except cfg s e hc
      rw [heq] at hnext
      have h2 := exceptBranch_next s e err2 s' hnext
      rcases hdiff with hd | hd
      · exact absurd h2.1 hd
      · exact absurd h2.2 hd
    · by_cases hv : s.verdict_dict = some v
      · rw [mainIter_noattempt cfg s e hc hv] at hnext
        simp at hnext
        rw [← hnext] at hdiff
        simp at hdiff
      · rcases hs : e.send1 with err | u
        · by_cases hk : err.kind = .ApiException ∨ err.kind = .RequestException
          · rw [mainIter_send_false cfg s e hc hv hs hk] at hnext
            simp at hnext
            rw [← hnext] at hdiff
            simp at hdiff
          · push_neg at hk
            rw [mainIter_send_raise cfg s e hc hv hs hk.1 hk.2] at hnext
            have h2 := exceptBranch_next s e err s' hnext
            rcases hdiff with hd | hd
            · exact absurd h2.1 hd
            · exact absurd h2.2 hd
        · cases u
          rfl
  · intro v e' err hc hv hs hk
    constructor
    · rw [mainIter_send_false cfg s e hc hv hs hk]
    · intro hc'
      rcases hs' : e'.send1 with err' | u'
      · by_cases hk' : err'.kind = .ApiException ∨ err'.kind = .RequestException
        · rw [mainIter_send_false cfg s e' hc' hv hs' hk']
          simp
        · push_neg at hk'
          rw [mainIter_send_raise cfg s e' hc' hv hs' hk'.1 hk'.2]
          simp
      · cases u'
        rw [mainIter_send_ok cfg s e' hc' hv hs']
        simp

/-- An environment whose in-try `send_message` call hits a Telegram API
error (delivery fails, returning false). -/
def envSendFail : Env :=
  ⟨.ok 200 "OK" "body" respEmpty, .error ⟨.ApiException, "flood"⟩, .ok ()⟩

/-- Witness for claim C4: a failed delivery at the initial state keeps the
whole state, and the same verdict is attempted again on the retry. -/
theorem claim_C4_witness :
    (mainIter cfg0 sInit envSendFail).next = some sInit
    ∧ noNews ∈ (mainIter cfg0 sInit envSendFail).attempted := by
  obtain ⟨h1, h2⟩ := (claim_C4 cfg0 sInit envSendFail).2.2 noNews envSendFail
    ⟨.ApiException, "flood"⟩ rfl (by decide) rfl (Or.inl rfl)
  exact ⟨h1, h2 rfl⟩

/-- Claim C7 is right about the normal paths but the code is wrong on error
iterations: with `last_verdict` unbound (as it always is in reachable
states), every iteration performs exactly the single 600-second `finally`
sleep — but on a caught error the loop then terminates with
`UnboundLocalError`, so no next iteration begins; and had the handler
completed, its own extra `time.sleep(RETRY_PERIOD)` plus the `finally` sleep
would make an error iteration sleep 1200 seconds rather than 600. -/
theorem claim_C7_bug :
    (∀ cfg (s : PollState) (e : Env), s.last_verdict = none →
      (mainIter cfg s e).sleeps = [RETRY_PERIOD])
    ∧ (mainIter cfg0 sInit envBad).sleeps = [RETRY_PERIOD]
    ∧ (mainIter cfg0 sInit envBad).next = none
    ∧ (∀ (s : PollState) (e : Env) err lv, s.last_verdict = some lv →
        lv ≠ failureMessage err → e.send2 = .ok () →
        (exceptBranch s e err).sleeps = [RETRY_PERIOD, RETRY_PERIOD]) := by
  refine ⟨?_, by decide, by rfl, ?_⟩
  · intro cfg s e h0
    rcases hc : computeVerdict e with _ | v
    · obtain ⟨err, heq⟩ := mainIter_except cfg s e hc
      rw [heq, exceptBranch_lv_none s e err h0]
    · by_cases hv : s.verdict_dict = some v
      · rw [mainIter_noattempt cfg s e hc hv]
      · rcases hs : e.send1 with err | u
        · by_cases hk : err.kind = .ApiException ∨ err.kind = .RequestException
          · rw [mainIter_send_false cfg s e hc hv hs hk]
          · push_neg at hk
            rw [mainIter_send_raise cfg s e hc hv hs hk.1 hk.2]
            show (exceptBranch s e err).sleeps = [RETRY_PERIOD]
            rw [exceptBranch_lv_none s e err h0]
        · cases u
          rw [mainIter_send_ok cfg s e hc hv hs]
  · intro s e err lv h1 h2 h3
    unfold exceptBranch
    simp only [h1]
    rw [if_pos h2]
    simp only [h3, send_message]

/-- Witness for claim C7: a normal iteration sleeps exactly once, and the
handler-completing path (unreachable in the buggy program) sleeps twice. -/
theorem claim_C7_bug_witness :
    (mainIter cfg0 sInit envEmpty).sleeps = [RETRY_PERIOD]
    ∧ (exceptBranch ⟨.int 0, none, some "prev"⟩ ⟨.fail "x", .ok (), .ok ()⟩
        ⟨.TypeError, "t"⟩).sleeps = [RETRY_PERIOD, RETRY_PERIOD] :=
  ⟨claim_C7_bug.1 cfg0 sInit envEmpty rfl,
   claim_C7_bug.2.2.2 ⟨.int 0, none, some "prev"⟩ ⟨.fail "x", .ok (), .ok ()⟩
      ⟨.TypeError, "t"⟩ "prev" rfl (by decide) rfl⟩

/-- Claim C10: an iteration whose computed verdict equals the stored one is
a complete no-op (same state, nothing attempted, single sleep), and
`timestamp` moves only when a changed verdict was successfully delivered in
that iteration. -/
theorem claim_C10 (cfg : Config) (s : PollState) (e : Env) :
    (∀ v, computeVerdict e = some v → s.verdict_dict = some v →
      mainIter cfg s e =
        { next := some s, crash := none, attempted := [], logs := [],
          sleeps := [RETRY_PERIOD] })
    ∧ (∀ s', (mainIter cfg s e).next = some s' → s'.timestamp ≠ s.timestamp →
        e.send1 = .ok () ∧ ∃ v, computeVerdict e = some v ∧ s.verdict_dict ≠ some v) := by
  constructor
  · intro v hc hv
    exact mainIter_noattempt cfg s e hc hv
  · intro s' hnext hdiff
    rcases hc : computeVerdict e with _ | v
    · obtain ⟨err, heq⟩ := mainIter_except cfg s e hc
      rw [heq] at hnext
      exact absurd (exceptBranch_next s e err s' hnext).2 hdiff
    · by_cases hv : s.verdict_dict = some v
      · rw [mainIter_noattempt cfg s e hc hv] at hnext
        simp at hnext
        rw [← hnext] at hdiff
        simp at hdiff
      · rcases hs : e.send1 with err | u
        · by_cases hk : err.kind = .ApiException ∨ err.kind = .RequestException
          · rw [mainIter_send_false cfg s e hc hv hs hk] at hnext
            simp at hnext
            rw [← hnext] at hdiff
            simp at hdiff
          · push_neg at hk
            rw [mainIter_send_raise cfg s e hc hv hs hk.1 hk.2] at hnext
            exact absurd (exceptBranch_next s e err s' hnext).2 hdiff
        · cases u
          exact ⟨rfl, v, rfl, hv⟩

/-- Witness for claim C10: the repeated no-new-statuses iteration is a
complete no-op. -/
theorem claim_C10_witness :
    mainIter cfg0 sAfterEmpty envEmpty =
      { next := some sAfterEmpty, crash := none, attempted := [], logs := [],
        sleeps := [RETRY_PERIOD] } :=
  (claim_C10 cfg0 sAfterEmpty envEmpty).1 noNews rfl rfl

end HomeworkBot
